import Mathlib

/-!
Verification of the authentication session broker
(`packages/plugin-ext/src/plugin/authentication-ext.ts`, class
`AuthenticationExtImpl`).

The class is embedded shallowly:

* The mutable fields `authenticationProviders` (a JS `Map`), `_providerIds`
  and `_providers` become the record `AuthState`; each method becomes a pure
  function from the pre-state (plus its arguments and the replies of its
  asynchronous collaborators) to the post-state, its result and the list of
  outgoing calls it performed, in program order.
* Calls on the RPC proxy (`$getSessionsPrompt`, `$selectSession`,
  `$loginPrompt`, `$setTrustedExtensionAndAccountPreference`,
  `$requestNewSession`, `$registerAuthenticationProvider`,
  `$unregisterAuthenticationProvider`, `$logout`) and on the provider object
  (`login`, `logout`) are recorded as `Effect` values; the values those
  asynchronous calls reply with are supplied by a `RemoteEnv` record.
* A provider's `getSessions()` result is the `sessions` field of the
  embedded provider record, and `supportsMultipleAccounts` is a data flag,
  matching the duck-typed provider surface.
* JavaScript's default `Array.prototype.sort` on string arrays (compare as
  strings, smaller code units first) is embedded as an insertion sort over
  the character lists of the strings, compared pointwise on code points.
* `Array.prototype.splice(i)` called with a single argument deletes every
  element from index `i` to the end of the array; it is embedded as
  `List.take i`.  `Array.prototype.indexOf` uses strict equality, embedded
  on the value level as structural equality of the record.
-/

/-! ## String ordering (JS default array sort on strings) -/

/-- Lexicographic `≤` on character lists, comparing code points, as JS's
default string comparison does for the arrays sorted here. -/
def charListLe : List Char → List Char → Bool
  | [], _ => true
  | _ :: _, [] => false
  | a :: as, b :: bs =>
    if a.toNat < b.toNat then true
    else if b.toNat < a.toNat then false
    else charListLe as bs

/-- `≤` on strings, via their character lists. -/
def strLe (a b : String) : Prop := charListLe a.data b.data = true

instance : DecidableRel strLe := fun a b =>
  inferInstanceAs (Decidable (charListLe a.data b.data = true))

theorem charListLe_total : ∀ xs ys : List Char,
    charListLe xs ys = true ∨ charListLe ys xs = true
  | [], _ => Or.inl rfl
  | _ :: _, [] => Or.inr rfl
  | x :: xs, y :: ys => by
    rcases Nat.lt_trichotomy x.toNat y.toNat with h | h | h
    · left; simp [charListLe, h]
    · have h1 : ¬ x.toNat < y.toNat := by omega
      have h2 : ¬ y.toNat < x.toNat := by omega
      simpa [charListLe, h1, h2] using charListLe_total xs ys
    · right; simp [charListLe, h]

theorem charListLe_trans : ∀ xs ys zs : List Char,
    charListLe xs ys = true → charListLe ys zs = true → charListLe xs zs = true
  | [], _, _, _, _ => rfl
  | _ :: _, [], _, hxy, _ => by simp [charListLe] at hxy
  | _ :: _, _ :: _, [], _, hyz => by simp [charListLe] at hyz
  | x :: xs, y :: ys, z :: zs, hxy, hyz => by
    simp only [charListLe] at hxy hyz ⊢
    by_cases e1 : x.toNat < y.toNat
    · by_cases e2 : y.toNat < z.toNat
      · rw [if_pos (Nat.lt_trans e1 e2)]
      · by_cases e3 : z.toNat < y.toNat
        · rw [if_neg e2, if_pos e3] at hyz; exact absurd hyz (by simp)
        · rw [if_pos (show x.toNat < z.toNat by omega)]
    · by_cases e4 : y.toNat < x.toNat
      · rw [if_neg e1, if_pos e4] at hxy; exact absurd hxy (by simp)
      · by_cases e2 : y.toNat < z.toNat
        · rw [if_pos (show x.toNat < z.toNat by omega)]
        · by_cases e3 : z.toNat < y.toNat
          · rw [if_neg e2, if_pos e3] at hyz; exact absurd hyz (by simp)
          · rw [if_neg (show ¬ x.toNat < z.toNat by omega),
              if_neg (show ¬ z.toNat < x.toNat by omega)]
            rw [if_neg e1, if_neg e4] at hxy
            rw [if_neg e2, if_neg e3] at hyz
            exact charListLe_trans xs ys zs hxy hyz

theorem char_eq_of_toNat_eq {a b : Char} (h : a.toNat = b.toNat) : a = b := by
  have h2 : Char.ofNat a.toNat = Char.ofNat b.toNat := congrArg Char.ofNat h
  rwa [Char.ofNat_toNat, Char.ofNat_toNat] at h2

theorem charListLe_antisymm : ∀ xs ys : List Char,
    charListLe xs ys = true → charListLe ys xs = true → xs = ys
  | [], [], _, _ => rfl
  | [], _ :: _, _, hyx => by simp [charListLe] at hyx
  | _ :: _, [], hxy, _ => by simp [charListLe] at hxy
  | x :: xs, y :: ys, hxy, hyx => by
    simp only [charListLe] at hxy hyx
    rcases Nat.lt_trichotomy x.toNat y.toNat with h | h | h
    · simp [h, Nat.lt_asymm h] at hyx
    · have h1 : ¬ x.toNat < y.toNat := by omega
      have h2 : ¬ y.toNat < x.toNat := by omega
      simp only [h1, h2, if_false, if_neg] at hxy hyx
      rw [char_eq_of_toNat_eq h, charListLe_antisymm xs ys hxy hyx]
    · simp [h, Nat.lt_asymm h] at hxy

theorem string_eq_of_data_eq {a b : String} (h : a.data = b.data) : a = b := by
  cases a; cases b; simp_all

instance : IsTotal String strLe := ⟨fun a b => charListLe_total a.data b.data⟩

instance : IsTrans String strLe :=
  ⟨fun _ _ _ hab hbc => charListLe_trans _ _ _ hab hbc⟩

instance : IsAntisymm String strLe :=
  ⟨fun _ _ hab hba => string_eq_of_data_eq (charListLe_antisymm _ _ hab hba)⟩

/-! ## Data model -/

/-- `theia.AuthenticationSessionAccountInformation`: account id plus display
label, as carried by a session. -/
structure AccountInformation where
  id : String
  label : String
deriving DecidableEq, Repr

/-- `theia.AuthenticationSession`: the immutable session value handed out by
providers. -/
structure AuthenticationSession where
  id : String
  accessToken : String
  account : AccountInformation
  scopes : List String
deriving DecidableEq, Repr

/-- `theia.AuthenticationProviderInformation`: the read-only `{id, label}`
projection stored in `_providers`. -/
structure ProviderInfo where
  id : String
  label : String
deriving DecidableEq, Repr

/-- The data surface of a `theia.AuthenticationProvider` the broker reads:
`id`, `label`, the `supportsMultipleAccounts` capability flag, and the
sessions its `getSessions()` currently reports. -/
structure AuthenticationProvider where
  id : String
  label : String
  supportsMultipleAccounts : Bool
  sessions : List AuthenticationSession
deriving DecidableEq, Repr

/-- The mutable fields of `AuthenticationExtImpl`: the provider `Map`
(association list with unique keys), the ordered `_providerIds` list and the
`_providers` info list. -/
structure AuthState where
  authenticationProviders : List (String × AuthenticationProvider)
  providerIds : List String
  providers : List ProviderInfo
deriving DecidableEq, Repr

/-- `Map.prototype.get`: the value at the first (unique) matching key. -/
def mapGet {α : Type} (m : List (String × α)) (k : String) : Option α :=
  (m.find? fun e => e.1 == k).map (·.2)

/-- `Map.prototype.set`: replace the entry when the key is present, else
append a fresh entry. -/
def mapSet {α : Type} (m : List (String × α)) (k : String) (v : α) :
    List (String × α) :=
  if m.any (fun e => e.1 == k) then
    m.map fun e => if e.1 == k then (k, v) else e
  else m ++ [(k, v)]

/-- `Map.prototype.delete`: drop the entry with the given key. -/
def mapDelete {α : Type} (m : List (String × α)) (k : String) :
    List (String × α) :=
  m.filter fun e => e.1 != k

/-! ## Scope canonicalisation (`authentication-ext.ts` line 76) -/

/-- `scopes.sort()`: JS default sort of a string array. -/
def sortScopes (scopes : List String) : List String :=
  List.insertionSort strLe scopes

/-- `scopes.sort().join(' ')`: the canonical scope key. -/
def scopesKey (scopes : List String) : String :=
  String.intercalate " " (sortScopes scopes)

/-- The session filter of `getSession` (line 77):
`s.scopes.slice().sort().join(' ') === orderedScopes`. -/
def sessionMatches (s : AuthenticationSession) (requestScopes : List String) :
    Bool :=
  scopesKey s.scopes == scopesKey requestScopes

/-! ## Outgoing calls and remote replies -/

/-- One outgoing call made by a method, in program order: a call on the
`AuthenticationMain` proxy, on the provider object, or a local emitter
firing. -/
inductive Effect where
  | getSessionsPrompt (providerId accountLabel providerLabel
      extensionId extensionName : String)
  | selectSession (providerId providerLabel extensionId extensionName : String)
      (sessions : List AuthenticationSession) (scopes : List String)
      (forceNewPrompt : Bool)
  | loginPrompt (providerLabel extensionName : String)
  | setTrustedExtensionAndAccountPreference
      (providerId accountLabel extensionId extensionName sessionId : String)
  | requestNewSession (providerId : String) (scopes : List String)
      (extensionId extensionName : String)
  | registerProviderWithProxy (providerId label : String)
      (supportsMultipleAccounts : Bool)
  | unregisterProviderWithProxy (providerId : String)
  | proxyLogout (providerId sessionId : String)
  | providerLogin (providerId : String) (scopes : List String)
  | providerLogout (providerId sessionId : String)
  | subscribeSessionChanges (providerId : String)
  | unsubscribeSessionChanges (providerId : String)
  | fireProvidersChanged (added removed : List ProviderInfo)
deriving DecidableEq, Repr

/-- The replies the asynchronous collaborators give during one `getSession`
call: the booleans returned by `$getSessionsPrompt` and `$loginPrompt`, the
session returned by `$selectSession`, and the session `provider.login`
resolves with. -/
structure RemoteEnv where
  getSessionsPromptReply : Bool
  selectSessionReply : AuthenticationSession
  loginPromptReply : Bool
  loginResult : AuthenticationSession
deriving DecidableEq, Repr

/-- The errors the broker throws, by source line:
`providerNotFound` (line 73), `consentDenied` (lines 86 and 97),
`duplicateProvider` (line 121). -/
inductive AuthError where
  | providerNotFound (providerId : String)
  | consentDenied
  | duplicateProvider (providerId : String)
deriving DecidableEq, Repr

/-- The `getSession` options the source reads: `createIfNone` and
`clearSessionPreference`. -/
structure GetSessionOptions where
  createIfNone : Bool
  clearSessionPreference : Bool
deriving DecidableEq, Repr

/-- Everything observable about one `getSession` call: its result (a session,
`undefined`, or a thrown error), the outgoing calls in order, and the
contents of the caller's `scopes` array when the call ends (`scopes.sort()`
on line 76 sorts that array in place). -/
structure GetSessionOutcome where
  result : Except AuthError (Option AuthenticationSession)
  effects : List Effect
  scopesAfter : List String
deriving Repr

/-- Everything observable about one state-mutating call that can throw:
result, post-state, outgoing calls in order. -/
structure StepOutcome where
  result : Except AuthError Unit
  state : AuthState
  effects : List Effect
deriving Repr

/-! ## The operations (`AuthenticationExtImpl`) -/

/-- `getSession(requestingExtension, providerId, scopes, options)`
(lines 64-108).  `extensionId`/`extensionName` stand for the values derived
from `requestingExtension.model` on lines 69-70. -/
def getSession (st : AuthState) (extensionId extensionName providerId : String)
    (scopes : List String) (options : GetSessionOptions) (env : RemoteEnv) :
    GetSessionOutcome :=
  match mapGet st.authenticationProviders providerId with
  | none =>
    -- line 73: throw before `scopes.sort()` runs, so the array is untouched
    ⟨Except.error (AuthError.providerNotFound providerId), [], scopes⟩
  | some provider =>
    -- line 76: `const orderedScopes = scopes.sort().join(' ')` — sorts the
    -- caller's array in place and joins the sorted contents
    let scopesSorted := sortScopes scopes
    -- line 77: filter `provider.getSessions()` by canonical scope key
    let sessions := provider.sessions.filter fun s => sessionMatches s scopes
    match sessions with
    | [] =>
      if options.createIfNone then
        -- lines 94-102
        if env.loginPromptReply then
          ⟨Except.ok (some env.loginResult),
            [Effect.loginPrompt provider.label extensionName,
             Effect.providerLogin providerId scopesSorted,
             Effect.setTrustedExtensionAndAccountPreference providerId
               env.loginResult.account.label extensionId extensionName
               env.loginResult.id],
            scopesSorted⟩
        else
          ⟨Except.error AuthError.consentDenied,
            [Effect.loginPrompt provider.label extensionName], scopesSorted⟩
      else
        -- lines 103-106
        ⟨Except.ok none,
          [Effect.requestNewSession providerId scopesSorted extensionId
            extensionName],
          scopesSorted⟩
    | session :: _ =>
      if !provider.supportsMultipleAccounts then
        -- lines 80-88: `sessions[0]`, then `$getSessionsPrompt`
        if env.getSessionsPromptReply then
          ⟨Except.ok (some session),
            [Effect.getSessionsPrompt providerId session.account.label
              provider.label extensionId extensionName],
            scopesSorted⟩
        else
          ⟨Except.error AuthError.consentDenied,
            [Effect.getSessionsPrompt providerId session.account.label
              provider.label extensionId extensionName],
            scopesSorted⟩
      else
        -- lines 91-92: `$selectSession` receives the (sorted) `scopes`
        -- array; the reply's id is resolved against `sessions` with `find`
        ⟨Except.ok (sessions.find? fun s => s.id == env.selectSessionReply.id),
          [Effect.selectSession providerId provider.label extensionId
            extensionName sessions scopesSorted options.clearSessionPreference],
          scopesSorted⟩

/-- `logout(providerId, sessionId)` (lines 110-117): delegate to the locally
registered provider, else forward to the proxy.  The broker state is not
touched. -/
def logout (st : AuthState) (providerId sessionId : String) : List Effect :=
  match mapGet st.authenticationProviders providerId with
  | none => [Effect.proxyLogout providerId sessionId]
  | some _ => [Effect.providerLogout providerId sessionId]

/-- `registerAuthenticationProvider(provider)` (lines 119-141): reject a
present id, otherwise store the provider, append the id and the info entry
when absent, subscribe to the provider's session changes and announce the
provider to the proxy.  On the throwing path no field has been mutated yet,
so the post-state is the pre-state. -/
def registerAuthenticationProvider (st : AuthState)
    (provider : AuthenticationProvider) : StepOutcome :=
  match mapGet st.authenticationProviders provider.id with
  | some _ =>
    ⟨Except.error (AuthError.duplicateProvider provider.id), st, []⟩
  | none =>
    let m := mapSet st.authenticationProviders provider.id provider
    -- lines 125-127: `indexOf === -1` guard before pushing the id
    let ids := if st.providerIds.contains provider.id then st.providerIds
      else st.providerIds ++ [provider.id]
    -- lines 129-134: `find` by id before pushing the info entry
    let infos := if (st.providers.find? fun p => p.id == provider.id).isSome
      then st.providers
      else st.providers ++ [⟨provider.id, provider.label⟩]
    ⟨Except.ok (), ⟨m, ids, infos⟩,
      [Effect.subscribeSessionChanges provider.id,
       Effect.registerProviderWithProxy provider.id provider.label
         provider.supportsMultipleAccounts]⟩

/-- The callback wrapped in the `Disposable` returned on lines 142-156:
unsubscribe, delete the map entry, `splice(index)` the id list,
`splice(i)` the info list, tell the proxy.  `splice` is called with no
delete count, so it removes every element from the found index to the end
of the array — embedded as `List.take`. -/
def disposerCallback (st : AuthState) (providerId : String) :
    AuthState × List Effect :=
  let m := mapDelete st.authenticationProviders providerId
  let ids := match st.providerIds.findIdx? (fun i => i == providerId) with
    | some index => st.providerIds.take index
    | none => st.providerIds
  let infos := match st.providers.findIdx? (fun p => p.id == providerId) with
    | some i => st.providers.take i
    | none => st.providers
  (⟨m, ids, infos⟩,
    [Effect.unsubscribeSessionChanges providerId,
     Effect.unregisterProviderWithProxy providerId])

/-- Modelled from the spec: the `Disposable` wrapper (imported from
`./types-impl`, a module outside the analysed sources) around the
unregistration callback.  The spec requires the disposer to "be safe to
invoke more than once (idempotent no-op after the first call)", so the
handle carries a disposed flag and runs the callback at most once. -/
def disposeHandle (alreadyDisposed : Bool) (st : AuthState)
    (providerId : String) : Bool × AuthState × List Effect :=
  if alreadyDisposed then (true, st, [])
  else
    let (st2, effs) := disposerCallback st providerId
    (true, st2, effs)

/-- `$onDidChangeAuthenticationProviders(added, removed)` (lines 191-206):
push the added entries whose object is not already in `_providers`
(`indexOf`, strict equality — embedded as structural equality of the
`{id, label}` record), then for each removed entry `splice(index)` at the
first index whose id matches (again with no delete count, so the list is
truncated there), then fire the local emitter. -/
def onDidChangeAuthenticationProviders (st : AuthState)
    (added removed : List ProviderInfo) : AuthState × List Effect :=
  let afterAdded := added.foldl
    (fun infos i => if infos.contains i then infos else infos ++ [i])
    st.providers
  let afterRemoved := removed.foldl
    (fun infos p =>
      match infos.findIdx? (fun provider => provider.id == p.id) with
      | some index => infos.take index
      | none => infos)
    afterAdded
  ({ st with providers := afterRemoved },
    [Effect.fireProvidersChanged added removed])

/-! ## Concrete fixtures -/

/-- A single-account provider with no sessions, id `p1`. -/
def provOne : AuthenticationProvider := ⟨"p1", "Provider One", false, []⟩

/-- A single-account provider with no sessions, id `p2`. -/
def provTwo : AuthenticationProvider := ⟨"p2", "Provider Two", false, []⟩

/-- Alice's session with scope `repo`. -/
def sessAlice : AuthenticationSession :=
  ⟨"s1", "tok1", ⟨"alice", "Alice"⟩, ["repo"]⟩

/-- Bob's session with scope `repo`. -/
def sessBob : AuthenticationSession :=
  ⟨"s2", "tok2", ⟨"bob", "Bob"⟩, ["repo"]⟩

/-- A multi-account provider holding Alice's and Bob's sessions. -/
def provMulti : AuthenticationProvider :=
  ⟨"pm", "Multi", true, [sessAlice, sessBob]⟩

/-- The freshly constructed broker: all fields empty. -/
def emptyState : AuthState := ⟨[], [], []⟩

/-- The broker after registering `provOne`. -/
def stateOne : AuthState :=
  (registerAuthenticationProvider emptyState provOne).state

/-- The broker after registering `provOne` and then `provTwo`. -/
def stateTwo : AuthState :=
  (registerAuthenticationProvider stateOne provTwo).state

/-- The broker after registering `provMulti`. -/
def stateMulti : AuthState :=
  (registerAuthenticationProvider emptyState provMulti).state

/-- Remote replies: every prompt consents, selection picks Bob's session,
`login` yields Alice's session. -/
def envConsent : RemoteEnv := ⟨true, sessBob, true, sessAlice⟩

/-- Remote replies: every prompt declines. -/
def envDeclined : RemoteEnv := ⟨false, sessBob, false, sessAlice⟩

/-! ## Claims -/

/-- C4: for scope sequences that are permutations of each other, the
canonical scope key coincides, so a session with scopes `S1` matches a
request for scopes `S2`; matching is neither case-insensitive nor
duplicate-insensitive: `["a","b"]` matches `["b","a"]` but not `["A","b"]`
and not `["a","b","b"]`. -/
theorem scope_matching_perm_invariant_case_sensitive :
    (∀ (S1 S2 : List String) (s : AuthenticationSession),
        S1.Perm S2 → s.scopes = S1 → sessionMatches s S2 = true) ∧
    sessionMatches ⟨"s", "t", ⟨"a", "A"⟩, ["a", "b"]⟩ ["b", "a"] = true ∧
    sessionMatches ⟨"s", "t", ⟨"a", "A"⟩, ["a", "b"]⟩ ["A", "b"] = false ∧
    sessionMatches ⟨"s", "t", ⟨"a", "A"⟩, ["a", "b"]⟩ ["a", "b", "b"] = false := by
  refine ⟨?_, by decide, by decide, by decide⟩
  intro S1 S2 s hperm hs
  have hsort : sortScopes S1 = sortScopes S2 :=
    List.eq_of_perm_of_sorted
      ((List.perm_insertionSort strLe S1).trans
        (hperm.trans (List.perm_insertionSort strLe S2).symm))
      (List.sorted_insertionSort strLe S1)
      (List.sorted_insertionSort strLe S2)
  have hkey : scopesKey S1 = scopesKey S2 := by
    unfold scopesKey
    rw [hsort]
  simp [sessionMatches, hs, hkey]

/-- Witness for C4 at concrete scope lists. -/
theorem scope_matching_perm_invariant_case_sensitive_witness :
    sessionMatches ⟨"w", "wt", ⟨"wa", "WA"⟩, ["x", "y"]⟩ ["y", "x"] = true :=
  scope_matching_perm_invariant_case_sensitive.1 ["x", "y"] ["y", "x"]
    ⟨"w", "wt", ⟨"wa", "WA"⟩, ["x", "y"]⟩ (by decide) rfl

/-- C5: registering a provider whose id is already in the registry throws
`DuplicateProviderError` and leaves the registry state — map, ordered id
list and info list — unchanged, with the first provider still reachable. -/
theorem register_duplicate_rejected (st : AuthState)
    (p q : AuthenticationProvider)
    (hp : mapGet st.authenticationProviders p.id = some q) :
    registerAuthenticationProvider st p =
      ⟨Except.error (AuthError.duplicateProvider p.id), st, []⟩ ∧
    mapGet (registerAuthenticationProvider st p).state.authenticationProviders
      p.id = some q := by
  unfold registerAuthenticationProvider
  rw [hp]
  exact ⟨rfl, hp⟩

/-- Witness for C5: re-registering `provOne` over `stateOne` fails and the
original registration survives. -/
theorem register_duplicate_rejected_witness :
    registerAuthenticationProvider stateOne provOne =
      ⟨Except.error (AuthError.duplicateProvider provOne.id), stateOne, []⟩ ∧
    mapGet (registerAuthenticationProvider stateOne
      provOne).state.authenticationProviders provOne.id = some provOne :=
  register_duplicate_rejected stateOne provOne provOne (by decide)

/-- C9: `logout` delegates to the locally registered provider without
contacting the proxy, and forwards to the proxy exactly when no local
provider has the id. -/
theorem logout_delegates_locally_else_forwards (st : AuthState)
    (providerId sessionId : String) :
    (∀ provider,
      mapGet st.authenticationProviders providerId = some provider →
        logout st providerId sessionId =
          [Effect.providerLogout providerId sessionId]) ∧
    (mapGet st.authenticationProviders providerId = none →
        logout st providerId sessionId =
          [Effect.proxyLogout providerId sessionId]) := by
  constructor
  · intro provider hp
    unfold logout
    rw [hp]
  · intro hp
    unfold logout
    rw [hp]

/-- Witness for C9: logging out on the registered `p1` reaches the provider,
logging out on the unknown `zz` reaches the proxy. -/
theorem logout_delegates_locally_else_forwards_witness :
    logout stateOne "p1" "sX" = [Effect.providerLogout "p1" "sX"] ∧
    logout stateOne "zz" "sY" = [Effect.proxyLogout "zz" "sY"] :=
  ⟨(logout_delegates_locally_else_forwards stateOne "p1" "sX").1 provOne
      (by decide),
    (logout_delegates_locally_else_forwards stateOne "zz" "sY").2 (by decide)⟩

/-- C6: `getSession` with `createIfNone` false on a registered provider with
no session matching the canonical scope key resolves to `undefined` (not an
error) and performs exactly one outgoing call, the `$requestNewSession`
notification. -/
theorem getSession_no_create_fires_one_request (st : AuthState)
    (extensionId extensionName providerId : String) (scopes : List String)
    (clearPref : Bool) (env : RemoteEnv) (provider : AuthenticationProvider)
    (hp : mapGet st.authenticationProviders providerId = some provider)
    (hs : provider.sessions.filter (fun s => sessionMatches s scopes) = []) :
    getSession st extensionId extensionName providerId scopes
        ⟨false, clearPref⟩ env =
      ⟨Except.ok none,
        [Effect.requestNewSession providerId (sortScopes scopes) extensionId
          extensionName],
        sortScopes scopes⟩ := by
  unfold getSession
  rw [hp]
  simp [hs]

/-- Witness for C6 on `stateOne`, whose provider reports no sessions. -/
theorem getSession_no_create_fires_one_request_witness :
    getSession stateOne "ext" "Ext" "p1" ["repo"] ⟨false, false⟩ envConsent =
      ⟨Except.ok none,
        [Effect.requestNewSession "p1" (sortScopes ["repo"]) "ext" "Ext"],
        sortScopes ["repo"]⟩ :=
  getSession_no_create_fires_one_request stateOne "ext" "Ext" "p1" ["repo"]
    false envConsent provOne (by decide) (by decide)

/-- C7: `getSession` with `createIfNone` true on a registered provider with
no matching sessions first asks `$loginPrompt`; on declined consent it
throws `ConsentDeniedError` and never calls `provider.login`; on granted
consent it calls `provider.login` with the (sorted) scopes, persists the
trust/account preference through the proxy, and returns the new session. -/
theorem getSession_createIfNone_consent_gate (st : AuthState)
    (extensionId extensionName providerId : String) (scopes : List String)
    (clearPref : Bool) (env : RemoteEnv) (provider : AuthenticationProvider)
    (hp : mapGet st.authenticationProviders providerId = some provider)
    (hs : provider.sessions.filter (fun s => sessionMatches s scopes) = []) :
    (env.loginPromptReply = false →
      getSession st extensionId extensionName providerId scopes
          ⟨true, clearPref⟩ env =
        ⟨Except.error AuthError.consentDenied,
          [Effect.loginPrompt provider.label extensionName],
          sortScopes scopes⟩) ∧
    (env.loginPromptReply = false →
      ∀ pid sc, Effect.providerLogin pid sc ∉
        (getSession st extensionId extensionName providerId scopes
          ⟨true, clearPref⟩ env).effects) ∧
    (env.loginPromptReply = true →
      getSession st extensionId extensionName providerId scopes
          ⟨true, clearPref⟩ env =
        ⟨Except.ok (some env.loginResult),
          [Effect.loginPrompt provider.label extensionName,
           Effect.providerLogin providerId (sortScopes scopes),
           Effect.setTrustedExtensionAndAccountPreference providerId
             env.loginResult.account.label extensionId extensionName
             env.loginResult.id],
          sortScopes scopes⟩) := by
  refine ⟨?_, ?_, ?_⟩
  · intro hr
    unfold getSession
    rw [hp]
    simp [hs, hr]
  · intro hr pid sc
    unfold getSession
    rw [hp]
    simp [hs, hr]
  · intro hr
    unfold getSession
    rw [hp]
    simp [hs, hr]

/-- Witness for C7: consent declined on `stateOne` throws and performs only
the `$loginPrompt` call. -/
theorem getSession_createIfNone_consent_gate_witness :
    getSession stateOne "ext" "Ext" "p1" ["repo"] ⟨true, false⟩ envDeclined =
      ⟨Except.error AuthError.consentDenied,
        [Effect.loginPrompt provOne.label "Ext"],
        sortScopes ["repo"]⟩ :=
  (getSession_createIfNone_consent_gate stateOne "ext" "Ext" "p1" ["repo"]
    false envDeclined provOne (by decide) (by decide)).1 rfl

/-- C8: on a registered multi-account provider with a non-empty matching
candidate list, `getSession` resolves the id replied by `$selectSession`
against the candidates with `find`, and when the id is absent from the
candidates the call resolves to `undefined` rather than throwing. -/
theorem getSession_multi_resolves_by_id (st : AuthState)
    (extensionId extensionName providerId : String) (scopes : List String)
    (options : GetSessionOptions) (env : RemoteEnv)
    (provider : AuthenticationProvider)
    (candidates : List AuthenticationSession)
    (hp : mapGet st.authenticationProviders providerId = some provider)
    (hm : provider.supportsMultipleAccounts = true)
    (hs : provider.sessions.filter (fun s => sessionMatches s scopes) =
      candidates)
    (hne : candidates ≠ []) :
    (getSession st extensionId extensionName providerId scopes options
        env).result =
      Except.ok (candidates.find? fun s => s.id == env.selectSessionReply.id) ∧
    ((∀ s ∈ candidates, s.id ≠ env.selectSessionReply.id) →
      (getSession st extensionId extensionName providerId scopes options
          env).result = Except.ok none) := by
  have hmain : (getSession st extensionId extensionName providerId scopes
      options env).result =
      Except.ok (candidates.find? fun s => s.id == env.selectSessionReply.id)
    := by
    unfold getSession
    rw [hp]
    cases hc : candidates with
    | nil => exact absurd hc hne
    | cons c cs =>
      rw [hc] at hs
      simp [hs, hm]
  refine ⟨hmain, fun hall => ?_⟩
  rw [hmain]
  have hnone : (candidates.find? fun s => s.id == env.selectSessionReply.id)
      = none := by
    rw [List.find?_eq_none]
    intro x hx
    simp [hall x hx]
  rw [hnone]

/-- Witness for C8: selection replies with Bob's session id, and Bob's
session from the candidate list is returned. -/
theorem getSession_multi_resolves_by_id_witness :
    (getSession stateMulti "ext" "Ext" "pm" ["repo"] ⟨false, true⟩
        envConsent).result =
      Except.ok ([sessAlice, sessBob].find? fun s =>
        s.id == envConsent.selectSessionReply.id) :=
  (getSession_multi_resolves_by_id stateMulti "ext" "Ext" "pm" ["repo"]
    ⟨false, true⟩ envConsent provMulti [sessAlice, sessBob] (by decide)
    (by decide) (by decide) (by decide)).1

/-- C10: on a registered provider `getSession` sorts the caller's `scopes`
array in place — afterwards the caller observes the sorted permutation of
the original contents — and any `$selectSession` call carries that sorted
array, not the original order. -/
theorem getSession_sorts_scopes_in_place (st : AuthState)
    (extensionId extensionName providerId : String) (scopes : List String)
    (options : GetSessionOptions) (env : RemoteEnv)
    (provider : AuthenticationProvider)
    (hp : mapGet st.authenticationProviders providerId = some provider) :
    (getSession st extensionId extensionName providerId scopes options
        env).scopesAfter = sortScopes scopes ∧
    (sortScopes scopes).Perm scopes ∧
    List.Sorted strLe (sortScopes scopes) ∧
    (∀ pid plabel eid ename sess sc force,
      Effect.selectSession pid plabel eid ename sess sc force ∈
        (getSession st extensionId extensionName providerId scopes options
          env).effects →
      sc = sortScopes scopes) := by
  refine ⟨?_, List.perm_insertionSort strLe scopes,
    List.sorted_insertionSort strLe scopes, ?_⟩
  · unfold getSession
    rw [hp]
    dsimp only
    split
    · split
      · split <;> rfl
      · rfl
    · split
      · split <;> rfl
      · rfl
  · intro pid plabel eid ename sess sc force hmem
    unfold getSession at hmem
    rw [hp] at hmem
    dsimp only at hmem
    split at hmem
    · split at hmem
      · split at hmem <;> simp_all
      · simp_all
    · split at hmem
      · split at hmem <;> simp_all
      · simp_all

/-- C1: the disposer's `splice(index)` calls carry no delete count, so
invoking `provOne`'s disposer on a registry that also holds `provTwo`
truncates the ordered id list and the info list from `provOne`'s position to
the end: `provTwo`'s id and info entry are removed as well, while `provTwo`
stays in the map — the lists and the map fall out of lock-step.  (The second
invocation is indeed a no-op, but the first removes more than the claim
allows.) -/
theorem disposer_truncates_sibling_entries :
    stateTwo.providerIds = ["p1", "p2"] ∧
    stateTwo.providers =
      [⟨"p1", "Provider One"⟩, ⟨"p2", "Provider Two"⟩] ∧
    (disposeHandle false stateTwo "p1").2.1.providerIds = [] ∧
    (disposeHandle false stateTwo "p1").2.1.providers = [] ∧
    mapGet (disposeHandle false stateTwo "p1").2.1.authenticationProviders
      "p2" = some provTwo := by
  decide

/-- C2: the added-delta loop tests membership with `indexOf` on the
`ProviderInfo` object itself instead of matching by id, so a broadcast
adding `{id: "x", label: "B"}` to an info list already containing
`{id: "x", label: "A"}` pushes a second entry with the id `"x"`. -/
theorem remote_added_delta_duplicates_id :
    (onDidChangeAuthenticationProviders ⟨[], [], [⟨"x", "A"⟩]⟩
        [⟨"x", "B"⟩] []).1.providers = [⟨"x", "A"⟩, ⟨"x", "B"⟩] ∧
    ((onDidChangeAuthenticationProviders ⟨[], [], [⟨"x", "A"⟩]⟩
        [⟨"x", "B"⟩] []).1.providers.filter
      (fun p => p.id == "x")).length = 2 := by
  decide

/-- C3: the removed-delta loop also calls `splice(index)` with no delete
count, so removing the first of three info entries truncates the whole list
instead of dropping only the matching entry; removing an absent id is,
as claimed, a no-op. -/
theorem remote_removed_delta_truncates_tail :
    (onDidChangeAuthenticationProviders
        ⟨[], [], [⟨"a", "A"⟩, ⟨"b", "B"⟩, ⟨"c", "C"⟩]⟩
        [] [⟨"a", "A"⟩]).1.providers = [] ∧
    (onDidChangeAuthenticationProviders
        ⟨[], [], [⟨"a", "A"⟩, ⟨"b", "B"⟩]⟩
        [] [⟨"z", "Z"⟩]).1.providers = [⟨"a", "A"⟩, ⟨"b", "B"⟩] := by
  decide

/-- Witness for C10: after `getSession` on `["b", "a"]` the caller's array
holds the sorted permutation. -/
theorem getSession_sorts_scopes_in_place_witness :
    (getSession stateOne "ext" "Ext" "p1" ["b", "a"] ⟨false, false⟩
        envConsent).scopesAfter = sortScopes ["b", "a"] :=
  (getSession_sorts_scopes_in_place stateOne "ext" "Ext" "p1" ["b", "a"]
    ⟨false, false⟩ envConsent provOne (by decide)).1
